import Mathlib

/-!
Shallow embedding of `whisper_fastapi.py`: the result renderers, the raw-PCM
wrapping of the two legacy konele handlers, the option marshaling and format
dispatch of the HTTP transcription endpoint, and the wyoming event-protocol
handler.  Python floats are modelled as exact rationals; external
collaborators (the hash function and the transcription engine) are
parameters of the embedded handlers.
-/

namespace WhisperFastapi

/-- Bytes of an audio payload; only the numeric value of each byte matters. -/
abbrev Byte := Nat

/-- ASCII whitespace as stripped by Python `str.strip()`. -/
def isPySpace (c : Char) : Bool :=
  c = ' ' || c = '\t' || c = '\n' || c = '\r' || c = '\x0b' || c = '\x0c'

/-- Python `str.strip()` (the payloads here are ASCII). -/
def pyStrip (s : String) : String :=
  ⟨((s.data.dropWhile isPySpace).reverse.dropWhile isPySpace).reverse⟩

/-- Python `round()`: nearest integer, ties to the even integer. -/
def pyRound (q : ℚ) : ℤ :=
  let f : ℤ := ⌊q⌋
  let frac : ℚ := q - (f : ℚ)
  if frac < 1 / 2 then f
  else if 1 / 2 < frac then f + 1
  else if f % 2 = 0 then f else f + 1

/-- An engine segment as consumed by this file: start and end offsets in
seconds and the transcribed text.  The source field `end` is a Lean keyword
and is embedded as `end_`. -/
structure Segment where
  start : ℚ
  end_ : ℚ
  text : String
  deriving DecidableEq

/-- The engine summary metadata; only the fields this file reads. -/
structure TranscriptionInfo where
  language : String
  language_probability : ℚ
  deriving DecidableEq

/-- Zero padding to two digits, as Python `02d` formatting. -/
def pad2 (n : ℕ) : String := if n < 10 then "0" ++ toString n else toString n

/-- Zero padding to three digits, as Python `03d` formatting. -/
def pad3 (n : ℕ) : String :=
  if n < 10 then "00" ++ toString n
  else if n < 100 then "0" ++ toString n
  else toString n

/-- Modelled from the spec: `format_timestamp` is imported from the vendored
`src/whisper_ctranslate2/writers.py`, which is not among the sources here.
The spec fixes its output shape: `HH:MM:SS,mmm` or `HH:MM:SS.mmm`, with the
hour field forced when `always_include_hours` is set (and dropped for a zero
hour otherwise). -/
def format_timestamp (seconds : ℚ) (always_include_hours : Bool)
    (decimal_marker : String) : String :=
  let milliseconds := (pyRound (seconds * 1000)).toNat
  let hours := milliseconds / 3600000
  let r1 := milliseconds % 3600000
  let minutes := r1 / 60000
  let r2 := r1 % 60000
  let secs := r2 / 1000
  let ms := r2 % 1000
  let hours_marker := if always_include_hours || hours > 0 then pad2 hours ++ ":" else ""
  hours_marker ++ pad2 minutes ++ ":" ++ pad2 secs ++ decimal_marker ++ pad3 ms

/-- Escaping of a string for a JSON literal, as `json.dumps` does for the
characters that can occur here. -/
def jsonEscape (s : String) : String :=
  ⟨s.data.foldr (fun c acc =>
    if c = '"' then '\\' :: '"' :: acc
    else if c = '\\' then '\\' :: '\\' :: acc
    else if c = '\n' then '\\' :: 'n' :: acc
    else c :: acc) []⟩

/-- Decimal digits of the fractional part of a rational in `[0, 1)`, with a
fuel bound; rendering stops when the remainder is exhausted. -/
def fracDigits : ℕ → ℚ → String
  | 0, _ => ""
  | fuel + 1, q =>
      let q10 := q * 10
      let d := ⌊q10⌋
      toString d ++ (if q10 - (d : ℚ) = 0 then "" else fracDigits fuel (q10 - (d : ℚ)))

/-- Rendering of a nonnegative rational the way `json.dumps` prints a float:
integer part, a dot, then the fractional digits (at least one). -/
def ratToJsonNumAbs (q : ℚ) : String :=
  let ip := ⌊q⌋
  let fp := q - (ip : ℚ)
  toString ip ++ "." ++ (if fp = 0 then "0" else fracDigits 30 fp)

/-- JSON rendering of a rational number. -/
def ratToJsonNum (q : ℚ) : String :=
  if q < 0 then "-" ++ ratToJsonNumAbs (-q) else ratToJsonNumAbs q

/-- An atomic JSON value: this file only serializes numbers and strings. -/
inductive JsonAtom
  | num (q : ℚ)
  | str (s : String)
  deriving DecidableEq

/-- Rendering of an atomic JSON value. -/
def JsonAtom.render : JsonAtom → String
  | .num q => ratToJsonNum q
  | .str s => "\"" ++ jsonEscape s ++ "\""

/-- Python `sep.join(parts)`. -/
def pyJoin (sep : String) : List String → String
  | [] => ""
  | [x] => x
  | x :: y :: rest => x ++ sep ++ pyJoin sep (y :: rest)

/-- Rendering of a flat JSON object with the default `json.dumps`
separators. -/
def jsonObjRender (fields : List (String × JsonAtom)) : String :=
  "\x7b" ++ pyJoin ", " (fields.map (fun p => "\"" ++ jsonEscape p.1 ++ "\": " ++ p.2.render)) ++ "\x7d"

/-- Modelled from the spec: `json.dumps(segment, ensure_ascii=False)`
serializes the external engine segment; it is modelled as one JSON object
holding the fields of the Segment data model of the spec. -/
def segmentJson (s : Segment) : List (String × JsonAtom) :=
  [("start", .num s.start), ("end", .num s.end_), ("text", .str s.text)]

/-- The serialized segment carried by one SSE frame. -/
def jsonDumpsSegment (s : Segment) : String := jsonObjRender (segmentJson s)

/-- `stream_writer`: one `data:` SSE frame per segment, then the `[DONE]`
sentinel frame. -/
def stream_writer : List Segment → List String
  | [] => ["data: [DONE]\n\n"]
  | s :: rest => ("data: " ++ jsonDumpsSegment s ++ "\n\n") :: stream_writer rest

/-- `text_writer`: one line per segment, text stripped. -/
def text_writer : List Segment → List String
  | [] => []
  | s :: rest => (pyStrip s.text ++ "\n") :: text_writer rest

/-- The per-segment rows of `tsv_writer`: start and end rounded to integer
milliseconds, text stripped. -/
def tsvRows : List Segment → List String
  | [] => []
  | s :: rest =>
      (toString (pyRound (1000 * s.start)) ++ "\t" ++ toString (pyRound (1000 * s.end_))
        ++ "\t" ++ pyStrip s.text ++ "\n") :: tsvRows rest

/-- `tsv_writer`: header row, then one row per segment. -/
def tsv_writer (segs : List Segment) : List String :=
  "start\tend\ttext\n" :: tsvRows segs

/-- The cue blocks of `srt_writer` starting at index `i`; the source
enumerates the generator with Python `enumerate`, whose first index is 0. -/
def srtFrom : ℕ → List Segment → List String
  | _, [] => []
  | i, s :: rest =>
      (toString i ++ "\n" ++ format_timestamp s.start true "," ++ " --> "
        ++ format_timestamp s.end_ true "," ++ "\n" ++ pyStrip s.text ++ "\n\n")
        :: srtFrom (i + 1) rest

/-- `srt_writer`: numbered cue blocks with comma decimal markers and forced
hour fields. -/
def srt_writer (segs : List Segment) : List String := srtFrom 0 segs

/-- The cue blocks of `vtt_writer` (default `format_timestamp` arguments of
the source: hours not forced, dot decimal marker). -/
def vttRows : List Segment → List String
  | [] => []
  | s :: rest =>
      (format_timestamp s.start false "." ++ " --> " ++ format_timestamp s.end_ false "."
        ++ "\n" ++ pyStrip s.text ++ "\n\n") :: vttRows rest

/-- `vtt_writer`: the WEBVTT header line, then cue blocks. -/
def vtt_writer (segs : List Segment) : List String := "WEBVTT\n\n" :: vttRows segs

/-- `JsonResult`: the transcription info fields merged with the materialized
segment list and the joined text. -/
structure JsonResult extends TranscriptionInfo where
  segments : List Segment
  text : String
  deriving DecidableEq

/-- `build_json_result`: materialize the generator and join the raw segment
texts with newlines. -/
def build_json_result (generator : List Segment) (info : TranscriptionInfo) : JsonResult :=
  { toTranscriptionInfo := info
    segments := generator
    text := pyJoin "\n" (generator.map (fun s => s.text)) }

/-- The synthetic two-segment sequence of the testable-properties section. -/
def synthSegments : List Segment :=
  [⟨0, 3 / 2, "hello"⟩, ⟨3 / 2, 3, "world"⟩]

/-- Python `s.split(sep)` on the character list, for a one-character
separator. -/
def splitChar (sep : Char) : List Char → List (List Char)
  | [] => [[]]
  | c :: rest =>
      let r := splitChar sep rest
      if c = sep then [] :: r
      else
        match r with
        | h :: t => (c :: h) :: t
        | [] => [[c]]

/-- Python `s.split(sep)` for a one-character separator. -/
def pySplit (s : String) (sep : Char) : List String :=
  (splitChar sep s.data).map (fun l => ⟨l⟩)

/-- The `lang = lang.split("-")[0]` normalization of both konele handlers. -/
def normalizeLang (lang : String) : String := (pySplit lang '-').headD ""

/-- `None if lang == "und" else lang`. -/
def langOpt (lang : String) : Option String := if lang = "und" then none else some lang

/-- The header parameters of a canonical wave container, as set through
`setnchannels`, `setsampwidth` and `setframerate`. -/
structure WavParams where
  nchannels : ℤ
  sampwidth : ℤ
  framerate : ℤ
  deriving DecidableEq

/-- A canonical wave container: its header parameters and the bytes written
through `writeframes`. -/
structure WavFile where
  params : WavParams
  frames : List Byte
  deriving DecidableEq

/-- The normalized audio handed to the engine: either the external flac
decode, or a raw-PCM payload wrapped in an explicit wave header. -/
inductive AudioPrep
  | flacDecoded (data : List Byte)
  | rawWav (w : WavFile)
  deriving DecidableEq

/-- Python `s.startswith(pre)`. -/
def pyStartsWith (s pre : String) : Bool := pre.data.isPrefixOf s.data

/-- The audio normalization of the konele WebSocket handler: a flac payload
is decoded externally; anything else is wrapped as raw PCM with the
hardcoded parameters `nchannels=1, sampwidth=2, framerate=16000`. -/
def koneleWsAudio (content_type : String) (data : List Byte) : AudioPrep :=
  if pyStartsWith content_type "audio/x-flac" then .flacDecoded data
  else .rawWav ⟨⟨1, 2, 16000⟩, data⟩

/-- One `key=value` item of the konele POST Content-Type header; a split that
does not give exactly two parts raises a ValueError in Python and is `none`
here. -/
def pairOfItem (i : String) : Option (String × String) :=
  match pySplit i '=' with
  | [k, v] => some (k, v)
  | _ => none

/-- The Content-Type parsing of the konele POST handler: split on commas,
keep the items holding a `=`, strip them, and read each as a `key=value`
pair. -/
def ctInfo (content_type : String) : Option (List (String × String)) :=
  (((pySplit content_type ',').filter (fun i => i.data.contains '=')).map pyStrip).mapM pairOfItem

/-- Python `dict` lookup with a default; the dict comprehension keeps the
last binding of a repeated key. -/
def dictGet (l : List (String × String)) (k d : String) : String :=
  match (l.filter (fun p => p.1 = k)).getLast? with
  | some p => p.2
  | none => d

/-- The numeric value of a decimal digit character. -/
def digitVal (c : Char) : Option ℕ := if c.isDigit then some (c.toNat - 48) else none

/-- Accumulating decimal parse of a digit list. -/
def natOfDigits : List Char → ℕ → Option ℕ
  | [], acc => some acc
  | c :: rest, acc =>
      match digitVal c with
      | some d => natOfDigits rest (10 * acc + d)
      | none => none

/-- Python `int()` on a decimal string (sign and surrounding whitespace
allowed; anything else raises and is `none` here). -/
def pyInt (s : String) : Option ℤ :=
  match (pyStrip s).data with
  | [] => none
  | '-' :: rest => if rest = [] then none else (natOfDigits rest 0).map (fun n => -(n : ℤ))
  | '+' :: rest => if rest = [] then none else (natOfDigits rest 0).map (fun n => (n : ℤ))
  | l => (natOfDigits l 0).map (fun n => (n : ℤ))

/-- The transport-declared raw-PCM parameters of the konele POST handler:
`channels` and `rate` read from the Content-Type header with defaults
1 and 16000. -/
def declaredParams (content_type : String) : Option (ℤ × ℤ) :=
  match ctInfo content_type with
  | none => none
  | some info =>
      match pyInt (dictGet info "channels" "1"), pyInt (dictGet info "rate" "16000") with
      | some channels, some rate => some (channels, rate)
      | _, _ => none

/-- The audio normalization of the konele POST handler `translateapi`: the
declared channels and rate with a fixed sample width of 2 bytes. -/
def translateapiAudio (content_type : String) (body : List Byte) : Option AudioPrep :=
  match declaredParams content_type with
  | none => none
  | some p =>
      if pyStartsWith content_type "audio/x-flac" then some (.flacDecoded body)
      else some (.rawWav ⟨⟨p.1, 2, p.2⟩, body⟩)

/-- The byte values of the literal `EOS` sentinel. -/
def eosBytes : List Byte := [69, 79, 83]

/-- Python `data[-3:]`. -/
def pyLastThree (l : List Byte) : List Byte := l.drop (l.length - 3)

/-- The konele WebSocket receive loop: frames are appended until the
accumulated buffer ends with the bytes `EOS`; a disconnect (the exhausted
frame list) is swallowed and ends the loop with whatever accumulated. -/
def recvLoop : List (List Byte) → List Byte → List Byte
  | [], data => data
  | f :: rest, data =>
      let d2 := data ++ f
      if pyLastThree d2 = eosBytes then d2 else recvLoop rest d2

/-- What the konele WebSocket handler computes before the engine call. -/
structure KoneleWsRun where
  data : List Byte
  id : String
  audio : AudioPrep
  langArg : Option String

/-- The konele WebSocket handler up to the engine call: accumulate the body,
hash the accumulated bytes, normalize the audio, and normalize the language.
The hash function is external and is a parameter. -/
def konele_ws (md5f : List Byte → String) (lang content_type : String)
    (frames : List (List Byte)) : KoneleWsRun :=
  let lang2 := normalizeLang lang
  let data := recvLoop frames []
  let md5 := md5f data
  { data := data
    id := md5
    audio := koneleWsAudio content_type data
    langArg := langOpt lang2 }

/-- What the konele POST handler computes before the engine call. -/
structure TranslateRun where
  id : String
  audio : Option AudioPrep
  langArg : Option String

/-- The konele POST handler `translateapi` up to the engine call; a
Content-Type whose parsing raises in Python surfaces as `audio = none`. -/
def translateapiRun (md5f : List Byte → String) (lang content_type : String)
    (body : List Byte) : TranslateRun :=
  let lang2 := normalizeLang lang
  { id := md5f body
    audio := translateapiAudio content_type body
    langArg := langOpt lang2 }

/-- The six VadOptions fields that the HTTP endpoint can assign.  The default
values of a fresh `VadOptions()` live in the external faster_whisper
library, so every statement takes the fresh instance as a parameter. -/
structure VadOptions where
  threshold : ℚ
  neg_threshold : ℚ
  min_speech_duration_ms : ℤ
  max_speech_duration_s : ℚ
  min_silence_duration_ms : ℤ
  speech_pad_ms : ℤ
  deriving DecidableEq

/-- The overlay in `transcription`: start from a fresh `VadOptions()` and
assign exactly the form fields that were supplied. -/
def applyVadOverlay (fresh : VadOptions) (vad_threshold vad_neg_threshold : Option ℚ)
    (vad_min_speech_duration_ms : Option ℤ) (vad_max_speech_duration_s : Option ℚ)
    (vad_min_silence_duration_ms : Option ℤ) (vad_speech_pad_ms : Option ℤ) : VadOptions :=
  let v := fresh
  let v := match vad_threshold with
    | some x => { v with threshold := x }
    | none => v
  let v := match vad_neg_threshold with
    | some x => { v with neg_threshold := x }
    | none => v
  let v := match vad_min_speech_duration_ms with
    | some x => { v with min_speech_duration_ms := x }
    | none => v
  let v := match vad_max_speech_duration_s with
    | some x => { v with max_speech_duration_s := x }
    | none => v
  let v := match vad_min_silence_duration_ms with
    | some x => { v with min_silence_duration_ms := x }
    | none => v
  match vad_speech_pad_ms with
  | some x => { v with speech_pad_ms := x }
  | none => v

/-- One observable step of the `transcription` endpoint, in order: the engine
call, the chosen response, or a raised HTTP error. -/
inductive HttpEffect
  | engineInvoke (task : String) (language : Option String) (vad_filter : Bool) (vad : VadOptions)
  | respondStream
  | respondJson
  | respondText
  | respondRefined
  | respondTsv
  | respondSrt
  | respondVtt
  | httpError (code : ℕ) (msg : String)
  deriving DecidableEq

/-- The task resolution at the top of `transcription`: an empty form task
falls back on the request path. -/
def resolveTask (path task : String) : Option String :=
  if task = "" then
    if path = "/v1/audio/transcriptions" then some "transcribe"
    else if path = "/v1/audio/translations" then some "translate"
    else none
  else some task

/-- The response dispatch at the bottom of `transcription`; a format outside
the six supported ones falls through to the 400 error. -/
def dispatchFormat (response_format : String) (gpt_refine : Bool) : List HttpEffect :=
  if response_format = "stream" then [.respondStream]
  else if response_format = "json" then [.respondJson]
  else if response_format = "text" then
    (if gpt_refine then [.respondRefined] else [.respondText])
  else if response_format = "tsv" then [.respondTsv]
  else if response_format = "srt" then [.respondSrt]
  else if response_format = "vtt" then [.respondVtt]
  else [.httpError 400 "Invailed response_format"]

/-- The `transcription` endpoint as the ordered trace of its effects: resolve
the task, overlay the VAD options, call the engine through `stream_builder`,
and only then dispatch on the requested format. -/
def transcriptionRun (fresh : VadOptions) (path task response_format language : String)
    (vad_filter : Bool) (vad_threshold vad_neg_threshold : Option ℚ)
    (vad_min_speech_duration_ms : Option ℤ) (vad_max_speech_duration_s : Option ℚ)
    (vad_min_silence_duration_ms : Option ℤ) (vad_speech_pad_ms : Option ℤ)
    (gpt_refine : Bool) : List HttpEffect :=
  match resolveTask path task with
  | none => [.httpError 400 "task parameter is required"]
  | some t =>
      let vad := applyVadOverlay fresh vad_threshold vad_neg_threshold
        vad_min_speech_duration_ms vad_max_speech_duration_s
        vad_min_silence_duration_ms vad_speech_pad_ms
      .engineInvoke t (langOpt language) vad_filter vad
        :: dispatchFormat response_format gpt_refine

/-- The external transcription engine as seen by the wyoming handler: a
language override and the buffered frames give segments and metadata. -/
abbrev Engine := Option String → List Byte → List Segment × TranscriptionInfo

/-- The per-connection mutable state of the wyoming `Handler`: the open
audio buffer (the `file_obj` and `wav_file` pair of the source, open when
`wav_file` is not `None`) and the pending language override. -/
structure HandlerState where
  wav_file : Option WavFile
  lang : Option String
  deriving DecidableEq

/-- The wyoming events the handler distinguishes. -/
inductive WyEvent
  | audioChunk (rate width channels : ℤ) (audio : List Byte)
  | audioStop
  | transcribe (language : Option String)
  | describe
  | unknown

/-- The observable outputs of one handler step: the engine call made while
finalizing, the transcript event written back, or the capability info
event. -/
inductive HOut
  | engineCall (language : Option String) (frames : List Byte)
  | transcript (text : String)
  | infoEvent
  deriving DecidableEq

/-- `Handler.handle_event`: the event dispatch of the wyoming handler.  An
`AudioStop` without an open buffer fails the `assert` of the source and is
an `error` here; the returned Bool is the value `handle_event` gives back to
the outer connection loop. -/
def handle_event (engine : Engine) (st : HandlerState) (e : WyEvent) :
    Except String (HandlerState × List HOut × Bool) :=
  match e with
  | .audioChunk rate width channels a =>
      let w0 : WavFile :=
        match st.wav_file with
        | none => ⟨⟨channels, width, rate⟩, []⟩
        | some w => w
      .ok ({ st with wav_file := some { w0 with frames := w0.frames ++ a } }, [], true)
  | .audioStop =>
      match st.wav_file with
      | none => .error "AudioStop without an open audio buffer"
      | some w =>
          let r := engine st.lang w.frames
          let text := (build_json_result r.1 r.2).text
          .ok (⟨none, none⟩, [.engineCall st.lang w.frames, .transcript text], false)
  | .transcribe language =>
      match language with
      | some lg => if lg = "" then .ok (st, [], true) else .ok ({ st with lang := some lg }, [], true)
      | none => .ok (st, [], true)
  | .describe => .ok (st, [.infoEvent], true)
  | .unknown => .ok (st, [], true)

/-- Modelled from the spec: the outer wyoming connection loop feeds events to
one handler instance; the Bool returned by an `AudioStop` step only signals
end-of-turn, subsequent events may start a new turn on the same handler. -/
def runEvents (engine : Engine) : HandlerState → List WyEvent →
    Except String (HandlerState × List HOut)
  | st, [] => .ok (st, [])
  | st, e :: es =>
      match handle_event engine st e with
      | .error msg => .error msg
      | .ok (st2, outs, _) =>
          match runEvents engine st2 es with
          | .error msg => .error msg
          | .ok (st3, outs2) => .ok (st3, outs ++ outs2)

/-- The language overrides of the engine calls in a list of outputs, in
order. -/
def engineLanguages : List HOut → List (Option String)
  | [] => []
  | .engineCall lg _ :: rest => lg :: engineLanguages rest
  | .transcript _ :: rest => engineLanguages rest
  | .infoEvent :: rest => engineLanguages rest

/-- A constant stand-in engine used to instantiate theorems at concrete
inputs. -/
def engineConst : Engine := fun _ _ => ([], ⟨"en", 1⟩)

/-- A stand-in hash function used to instantiate theorems at concrete
inputs. -/
def md50 : List Byte → String := fun _ => "d41d8cd9"

/-! Helper lemmas: concrete rounding facts and map characterizations of the
recursive renderers. -/

lemma pyRound_msA : pyRound (1000 * (0 : ℚ)) = 0 := by norm_num [pyRound]

lemma pyRound_msB : pyRound (1000 * (3 / 2 : ℚ)) = 1500 := by norm_num [pyRound]

lemma pyRound_msC : pyRound (1000 * (3 : ℚ)) = 3000 := by norm_num [pyRound]

lemma pyRound_tsA : pyRound ((0 : ℚ) * 1000) = 0 := by norm_num [pyRound]

lemma pyRound_tsB : pyRound ((3 / 2 : ℚ) * 1000) = 1500 := by norm_num [pyRound]

lemma pyRound_tsC : pyRound ((3 : ℚ) * 1000) = 3000 := by norm_num [pyRound]

lemma format_timestamp_srtA : format_timestamp 0 true "," = "00:00:00,000" := by
  simp only [format_timestamp, pyRound_tsA]; decide

lemma format_timestamp_srtB : format_timestamp (3 / 2) true "," = "00:00:01,500" := by
  simp only [format_timestamp, pyRound_tsB]; decide

lemma format_timestamp_srtC : format_timestamp 3 true "," = "00:00:03,000" := by
  simp only [format_timestamp, pyRound_tsC]; decide

lemma text_writer_eq (segs : List Segment) :
    text_writer segs = segs.map (fun s => pyStrip s.text ++ "\n") := by
  induction segs with
  | nil => rfl
  | cons s rest ih => simp [text_writer, ih]

lemma tsvRows_eq (segs : List Segment) :
    tsvRows segs = segs.map (fun s =>
      toString (pyRound (1000 * s.start)) ++ "\t" ++ toString (pyRound (1000 * s.end_))
        ++ "\t" ++ pyStrip s.text ++ "\n") := by
  induction segs with
  | nil => rfl
  | cons s rest ih => simp [tsvRows, ih]

lemma srtFrom_eq (i : ℕ) (segs : List Segment) :
    srtFrom i segs = (List.enumFrom i segs).map (fun p =>
      toString p.1 ++ "\n" ++ format_timestamp p.2.start true "," ++ " --> "
        ++ format_timestamp p.2.end_ true "," ++ "\n" ++ pyStrip p.2.text ++ "\n\n") := by
  induction segs generalizing i with
  | nil => rfl
  | cons s rest ih => simp [srtFrom, List.enumFrom, ih]

lemma vttRows_eq (segs : List Segment) :
    vttRows segs = segs.map (fun s =>
      format_timestamp s.start false "." ++ " --> " ++ format_timestamp s.end_ false "."
        ++ "\n" ++ pyStrip s.text ++ "\n\n") := by
  induction segs with
  | nil => rfl
  | cons s rest ih => simp [vttRows, ih]

lemma stream_writer_eq (segs : List Segment) :
    stream_writer segs
      = segs.map (fun s => "data: " ++ jsonDumpsSegment s ++ "\n\n") ++ ["data: [DONE]\n\n"] := by
  induction segs with
  | nil => rfl
  | cons s rest ih => simp [stream_writer, ih]

lemma splitChar_append (sep : Char) (l r : List Char) (h : ∀ c ∈ l, c ≠ sep) :
    splitChar sep (l ++ sep :: r) = l :: splitChar sep r := by
  induction l with
  | nil => simp [splitChar]
  | cons a t ih =>
      have ha : a ≠ sep := h a (List.mem_cons_self a t)
      have ht : ∀ c ∈ t, c ≠ sep := fun c hc => h c (List.mem_cons_of_mem a hc)
      simp [splitChar, ha, ih ht]

lemma str_data_append (a b : String) : (a ++ b).data = a.data ++ b.data := by
  cases a; cases b; rfl

/-- Claim C1: on the synthetic two-segment input the SRT writer emits cues
numbered 0 and 1 — Python `enumerate` starts at 0 — with the claimed
`HH:MM:SS,mmm` timestamps and trimmed text; it does not emit the 1-based cue
numbers the claim states. -/
theorem srt_cues_zero_based :
    srt_writer synthSegments
        = ["0\n00:00:00,000 --> 00:00:01,500\nhello\n\n",
           "1\n00:00:01,500 --> 00:00:03,000\nworld\n\n"]
    ∧ srt_writer synthSegments
        ≠ ["1\n00:00:00,000 --> 00:00:01,500\nhello\n\n",
           "2\n00:00:01,500 --> 00:00:03,000\nworld\n\n"] := by
  have h : srt_writer synthSegments
      = ["0\n00:00:00,000 --> 00:00:01,500\nhello\n\n",
         "1\n00:00:01,500 --> 00:00:03,000\nworld\n\n"] := by
    simp only [srt_writer, srtFrom, synthSegments, format_timestamp_srtA,
      format_timestamp_srtB, format_timestamp_srtC]
    decide
  exact ⟨h, by rw [h]; decide⟩

/-- Claim C2, counterexample: the konele WebSocket handler, given a declared
`channels=2, rate=8000`, wraps raw PCM with the hardcoded header
`channels=1, width=2, rate=16000`, not with the declared values. -/
theorem konele_ws_ignores_declared :
    koneleWsAudio "audio/x-raw, channels=2, rate=8000" [0]
        = .rawWav ⟨⟨1, 2, 16000⟩, [0]⟩
    ∧ koneleWsAudio "audio/x-raw, channels=2, rate=8000" [0]
        ≠ .rawWav ⟨⟨2, 2, 8000⟩, [0]⟩ := by
  decide

/-- Claim C2 (amended): the chunked-POST handler wraps raw PCM with the
transport-declared channels and rate and a fixed 16-bit width; the WebSocket
handler ignores any declaration and always encodes channels=1, rate=16000,
width=2.  The declaration `channels=2, rate=8000` parses to (2, 8000). -/
theorem legacy_raw_wrap (ct ct2 : String) (body body2 : List Byte) (c r : ℤ)
    (hd : declaredParams ct = some (c, r))
    (hraw : pyStartsWith ct "audio/x-flac" = false)
    (hraw2 : pyStartsWith ct2 "audio/x-flac" = false) :
    translateapiAudio ct body = some (.rawWav ⟨⟨c, 2, r⟩, body⟩)
    ∧ koneleWsAudio ct2 body2 = .rawWav ⟨⟨1, 2, 16000⟩, body2⟩
    ∧ declaredParams "audio/x-raw, channels=2, rate=8000" = some (2, 8000) := by
  refine ⟨?_, ?_, by decide⟩
  · simp [translateapiAudio, hd, hraw]
  · simp [koneleWsAudio, hraw2]

/-- Witness for C2 at a concrete declaration and payload. -/
theorem legacy_raw_wrap_witness :
    translateapiAudio "audio/x-raw, channels=2, rate=8000" [7]
        = some (.rawWav ⟨⟨2, 2, 8000⟩, [7]⟩)
    ∧ koneleWsAudio "audio/x-raw" [7] = .rawWav ⟨⟨1, 2, 16000⟩, [7]⟩
    ∧ declaredParams "audio/x-raw, channels=2, rate=8000" = some (2, 8000) :=
  legacy_raw_wrap "audio/x-raw, channels=2, rate=8000" "audio/x-raw" [7] [7] 2 8000
    (by decide) (by decide) (by decide)

/-- Claim C3, counterexample: the JsonResult text field keeps the raw
segment text; it is not the newline-join of trimmed texts. -/
theorem json_text_not_trimmed :
    (build_json_result [⟨0, 1, " hello "⟩] ⟨"en", 1⟩).text = " hello "
    ∧ (build_json_result [⟨0, 1, " hello "⟩] ⟨"en", 1⟩).text
        ≠ pyJoin "\n" ([(⟨0, 1, " hello "⟩ : Segment)].map (fun s => pyStrip s.text)) := by
  decide

/-- Claim C3 (amended): the text, tsv, srt and vtt renderers strip each
segment text before rendering; the json result joins the raw texts and keeps
the raw segments, and the stream frames serialize the raw segment. -/
theorem renderers_trim_per_format (segs : List Segment) (info : TranscriptionInfo) :
    text_writer segs = segs.map (fun s => pyStrip s.text ++ "\n")
    ∧ tsv_writer segs = "start\tend\ttext\n" :: segs.map (fun s =>
        toString (pyRound (1000 * s.start)) ++ "\t" ++ toString (pyRound (1000 * s.end_))
          ++ "\t" ++ pyStrip s.text ++ "\n")
    ∧ srt_writer segs = (List.enumFrom 0 segs).map (fun p =>
        toString p.1 ++ "\n" ++ format_timestamp p.2.start true "," ++ " --> "
          ++ format_timestamp p.2.end_ true "," ++ "\n" ++ pyStrip p.2.text ++ "\n\n")
    ∧ vtt_writer segs = "WEBVTT\n\n" :: segs.map (fun s =>
        format_timestamp s.start false "." ++ " --> " ++ format_timestamp s.end_ false "."
          ++ "\n" ++ pyStrip s.text ++ "\n\n")
    ∧ stream_writer segs
        = segs.map (fun s => "data: " ++ jsonDumpsSegment s ++ "\n\n") ++ ["data: [DONE]\n\n"]
    ∧ (build_json_result segs info).text = pyJoin "\n" (segs.map (fun s => s.text))
    ∧ (build_json_result segs info).segments = segs :=
  ⟨text_writer_eq segs, by simp only [tsv_writer, tsvRows_eq],
   by simp only [srt_writer, srtFrom_eq], by simp only [vtt_writer, vttRows_eq],
   stream_writer_eq segs, rfl, rfl⟩

/-- Claim C4: the VadOptions passed onward has exactly the supplied fields
overridden; every unsupplied field keeps the value of the fresh
`VadOptions()`.  Supplying only the threshold changes only the threshold,
and that is precisely the VadOptions the transcription endpoint hands to
the engine. -/
theorem vad_overlay_defaults (fresh : VadOptions) (vt vnt : Option ℚ) (vmsd : Option ℤ)
    (vmxd : Option ℚ) (vmsl : Option ℤ) (vsp : Option ℤ) (x : ℚ) :
    applyVadOverlay fresh vt vnt vmsd vmxd vmsl vsp
        = { threshold := vt.getD fresh.threshold
            neg_threshold := vnt.getD fresh.neg_threshold
            min_speech_duration_ms := vmsd.getD fresh.min_speech_duration_ms
            max_speech_duration_s := vmxd.getD fresh.max_speech_duration_s
            min_silence_duration_ms := vmsl.getD fresh.min_silence_duration_ms
            speech_pad_ms := vsp.getD fresh.speech_pad_ms }
    ∧ applyVadOverlay fresh (some x) none none none none none = { fresh with threshold := x }
    ∧ transcriptionRun fresh "/v1/audio/transcriptions" "" "json" "und" false
        (some x) none none none none none false
        = [.engineInvoke "transcribe" none false { fresh with threshold := x }, .respondJson] := by
  refine ⟨?_, rfl, rfl⟩
  cases vt <;> cases vnt <;> cases vmsd <;> cases vmxd <;> cases vmsl <;> cases vsp <;> rfl

/-- Claim C5: the stream format yields one `data:` frame per segment, in
order, each carrying the JSON serialization of that segment, followed by
the literal `data: [DONE]` frame; the frame count is the segment count plus
one, and 3 for the synthetic two-segment input. -/
theorem stream_writer_frames (segs : List Segment) :
    stream_writer segs
        = segs.map (fun s => "data: " ++ jsonDumpsSegment s ++ "\n\n") ++ ["data: [DONE]\n\n"]
    ∧ (stream_writer segs).length = segs.length + 1
    ∧ (∀ s : Segment, jsonDumpsSegment s = jsonObjRender (segmentJson s))
    ∧ (stream_writer synthSegments).length = 3 := by
  refine ⟨stream_writer_eq segs, ?_, fun s => rfl, rfl⟩
  rw [stream_writer_eq]; simp

/-- Claim C6: a Transcribe event carrying a nonempty language only stores
the pending override (no other state change, no output, turn continues);
the next AudioStop passes exactly that override to the engine and clears
it; a full two-turn run with one leading Transcribe passes the override on
the first finalize only and no override on the second. -/
theorem transcribe_override_once (engine : Engine) (st : HandlerState) (l : String)
    (hl : l ≠ "") (w : WavFile) (a1 a2 : List Byte) :
    handle_event engine st (.transcribe (some l)) = .ok ({ st with lang := some l }, [], true)
    ∧ handle_event engine ⟨some w, some l⟩ .audioStop
        = .ok (⟨none, none⟩,
            [.engineCall (some l) w.frames,
             .transcript (build_json_result (engine (some l) w.frames).1
                            (engine (some l) w.frames).2).text],
            false)
    ∧ (runEvents engine ⟨none, none⟩
          [.transcribe (some l), .audioChunk 16000 2 1 a1, .audioStop,
           .audioChunk 16000 2 1 a2, .audioStop]).map (fun p => engineLanguages p.2)
        = .ok [some l, none] := by
  refine ⟨?_, ?_, ?_⟩
  · simp [handle_event, hl]
  · simp [handle_event]
  · simp [runEvents, handle_event, hl, engineLanguages, Except.map]

/-- Witness for C6 with the language "fr", a constant engine and concrete
chunks. -/
theorem transcribe_override_once_witness :
    handle_event engineConst ⟨none, none⟩ (.transcribe (some "fr"))
        = .ok (⟨none, some "fr"⟩, [], true)
    ∧ handle_event engineConst ⟨some ⟨⟨1, 2, 16000⟩, [5]⟩, some "fr"⟩ .audioStop
        = .ok (⟨none, none⟩,
            [.engineCall (some "fr") [5],
             .transcript (build_json_result (engineConst (some "fr") [5]).1
                            (engineConst (some "fr") [5]).2).text],
            false)
    ∧ (runEvents engineConst ⟨none, none⟩
          [.transcribe (some "fr"), .audioChunk 16000 2 1 [5], .audioStop,
           .audioChunk 16000 2 1 [6], .audioStop]).map (fun p => engineLanguages p.2)
        = .ok [some "fr", none] := by
  have h := transcribe_override_once engineConst ⟨none, none⟩ "fr" (by decide)
    ⟨⟨1, 2, 16000⟩, [5]⟩ [5] [6]
  exact h

/-- Claim C7: on the synthetic two-segment input the tsv renderer produces
exactly the documented literal: a header row, then integer-millisecond
start/end and trimmed text per row. -/
theorem tsv_synthetic_exact :
    String.join (tsv_writer synthSegments)
      = "start\tend\ttext\n0\t1500\thello\n1500\t3000\tworld\n" := by
  simp only [tsv_writer, tsvRows, synthSegments, pyRound_msA, pyRound_msB, pyRound_msC]
  decide

/-- Claim C8: both konele handlers pass onward the language reduced by
`lang.split("-")[0]`; a region subtag after a dash is stripped, so
`en-US` and `en-GB` both reduce to `en`. -/
theorem lang_region_stripped (md5f : List Byte → String) (lang ct : String)
    (frames : List (List Byte)) (body : List Byte) (base region : String)
    (hb : ∀ c ∈ base.data, c ≠ '-') :
    (konele_ws md5f lang ct frames).langArg = langOpt (normalizeLang lang)
    ∧ (translateapiRun md5f lang ct body).langArg = langOpt (normalizeLang lang)
    ∧ normalizeLang (base ++ "-" ++ region) = base
    ∧ normalizeLang "en-US" = "en"
    ∧ normalizeLang "en-GB" = "en" := by
  refine ⟨rfl, rfl, ?_, by decide, by decide⟩
  obtain ⟨bl⟩ := base
  simp only [normalizeLang, pySplit, str_data_append, List.append_assoc,
    List.cons_append, List.nil_append]
  rw [splitChar_append '-' bl region.data hb]
  rfl

/-- Witness for C8 at the language "en-US". -/
theorem lang_region_stripped_witness :
    (konele_ws md50 "en-US" "audio/x-raw" []).langArg = langOpt (normalizeLang "en-US")
    ∧ (translateapiRun md50 "en-US" "audio/x-raw" []).langArg = langOpt (normalizeLang "en-US")
    ∧ normalizeLang ("en" ++ "-" ++ "US") = "en"
    ∧ normalizeLang "en-US" = "en"
    ∧ normalizeLang "en-GB" = "en" :=
  lang_region_stripped md50 "en-US" "audio/x-raw" [] [] "en" "US" (by decide)

/-- Claim C9: for any resolvable task and a response format outside the six
supported ones, the endpoint trace is the engine invocation followed by the
400 error — the format check happens after, not before, the engine call. -/
theorem engine_call_precedes_format_error (fresh : VadOptions)
    (path task response_format language : String) (vf gr : Bool)
    (vt vnt : Option ℚ) (vmsd : Option ℤ) (vmxd : Option ℚ)
    (vmsl : Option ℤ) (vsp : Option ℤ) (t : String)
    (hres : resolveTask path task = some t)
    (hfmt : response_format ∉ (["stream", "json", "text", "tsv", "srt", "vtt"] : List String)) :
    transcriptionRun fresh path task response_format language vf vt vnt vmsd vmxd vmsl vsp gr
      = [.engineInvoke t (langOpt language) vf (applyVadOverlay fresh vt vnt vmsd vmxd vmsl vsp),
         .httpError 400 "Invailed response_format"] := by
  simp only [List.mem_cons, List.not_mem_nil, or_false, not_or] at hfmt
  obtain ⟨h1, h2, h3, h4, h5, h6⟩ := hfmt
  simp [transcriptionRun, hres, dispatchFormat, h1, h2, h3, h4, h5, h6]

/-- Witness for C9 at the unsupported format "xml" on the transcription
path. -/
theorem engine_call_precedes_format_error_witness :
    transcriptionRun ⟨0, 0, 0, 0, 0, 0⟩ "/v1/audio/transcriptions" "" "xml" "und" false
        none none none none none none false
      = [.engineInvoke "transcribe" (langOpt "und") false
            (applyVadOverlay ⟨0, 0, 0, 0, 0, 0⟩ none none none none none none),
         .httpError 400 "Invailed response_format"] :=
  engine_call_precedes_format_error ⟨0, 0, 0, 0, 0, 0⟩ "/v1/audio/transcriptions" "" "xml"
    "und" false false none none none none none none "transcribe" (by decide) (by decide)

/-- Claim C10: when the receive loop ends with the EOS sentinel at the tail
of the buffer, the echoed id is the hash of the full accumulated bytes —
sentinel included — and the raw-PCM branch writes those same bytes,
sentinel included, into the container frames. -/
theorem eos_suffix_not_stripped (md5f : List Byte → String) (lang ct : String)
    (frames : List (List Byte))
    (heos : pyLastThree (recvLoop frames []) = eosBytes)
    (hraw : pyStartsWith ct "audio/x-flac" = false) :
    (konele_ws md5f lang ct frames).id = md5f (recvLoop frames [])
    ∧ (konele_ws md5f lang ct frames).audio
        = .rawWav ⟨⟨1, 2, 16000⟩, recvLoop frames []⟩
    ∧ pyLastThree (recvLoop frames []) = eosBytes := by
  refine ⟨rfl, ?_, heos⟩
  simp [konele_ws, koneleWsAudio, hraw]

/-- Witness for C10 with two frames whose accumulation ends in the EOS
bytes. -/
theorem eos_suffix_not_stripped_witness :
    (konele_ws md50 "und" "audio/x-raw" [[1, 2], [69, 79, 83]]).id
        = md50 (recvLoop [[1, 2], [69, 79, 83]] [])
    ∧ (konele_ws md50 "und" "audio/x-raw" [[1, 2], [69, 79, 83]]).audio
        = .rawWav ⟨⟨1, 2, 16000⟩, recvLoop [[1, 2], [69, 79, 83]] []⟩
    ∧ pyLastThree (recvLoop [[1, 2], [69, 79, 83]] []) = eosBytes :=
  eos_suffix_not_stripped md50 "und" "audio/x-raw" [[1, 2], [69, 79, 83]]
    (by decide) (by decide)

end WhisperFastapi
